import Mathlib

/-!
Verification development for the DM-PostgreSQL ETL core (`src/etl.py`).

The embedding models the two entry points `process_song_file` and
`process_log_file` as pure functions from parsed file content and a store
model to the ordered list of statements the code attempts to execute on the
cursor.  The time-bucket derivation (pandas `Series.dt.hour`,
`Series.dt.isocalendar()`, `Series.dt.month`, `Series.dt.weekday` on a
timestamp converted with `pd.to_datetime(ts, unit="ms")`) is modelled by an
explicit proleptic-Gregorian calendar computation on epoch-millisecond
timestamps.
-/

/-- Milliseconds per day. -/
def msPerDay : Nat := 86400000

/-- Days since 1970-01-01 of an epoch-millisecond timestamp. -/
def msToDays (ts : Nat) : Nat := ts / msPerDay

/-- Hour of day of an epoch-millisecond timestamp, as `Series.dt.hour`. -/
def hourOf (ts : Nat) : Nat := ts / 3600000 % 24

/-- Gregorian leap-year test. -/
def isLeap (y : Nat) : Bool := (y % 4 == 0 && y % 100 != 0) || y % 400 == 0

/-- Number of days in Gregorian year `y`. -/
def daysInYear (y : Nat) : Nat := if isLeap y then 366 else 365

/-- Walk years forward from `y`, consuming `rem` days; `fuel` bounds the
recursion (any `fuel ≥ rem` is enough since each step consumes ≥ 365 days).
Returns the year containing the day and the 0-based ordinal day in it. -/
def yearDoyAux : Nat → Nat → Nat → Nat × Nat
  | 0, y, rem => (y, rem)
  | fuel + 1, y, rem =>
    if daysInYear y ≤ rem then yearDoyAux fuel (y + 1) (rem - daysInYear y)
    else (y, rem)

/-- Year and 0-based day-of-year of a day count since 1970-01-01. -/
def yearDoy (days : Nat) : Nat × Nat := yearDoyAux days 1970 days

/-- Days from 1970-01-01 to Jan 1 of year `1970 + n`. -/
def startOfYearAux : Nat → Nat
  | 0 => 0
  | n + 1 => startOfYearAux n + daysInYear (1970 + n)

/-- Days from 1970-01-01 to Jan 1 of year `y` (for `y ≥ 1970`). -/
def startOfYear (y : Nat) : Nat := startOfYearAux (y - 1970)

/-- Day-of-week with Monday = 0, as `Series.dt.weekday`
(1970-01-01 was a Thursday, i.e. 3). -/
def wdOf (days : Nat) : Nat := (days + 3) % 7

/-- Day-of-week of Jan 1 of year `y` (Monday = 0). -/
def jan1wd (y : Nat) : Nat := wdOf (startOfYear y)

/-- Lengths of the twelve months. -/
def monthLengths (leap : Bool) : List Nat :=
  [31, if leap then 29 else 28, 31, 30, 31, 30, 31, 31, 30, 31, 30, 31]

/-- Walk the month-length table to turn a 0-based day-of-year into a
(month, day-of-month) pair, both 1-based. -/
def monthDayAux : Nat → List Nat → Nat → Nat × Nat
  | m, [], d0 => (m, d0 + 1)
  | m, len :: rest, d0 =>
    if d0 < len then (m, d0 + 1) else monthDayAux (m + 1) rest (d0 - len)

/-- Month and day-of-month (1-based) of year `y`, 0-based day-of-year `d0`. -/
def monthDay (y d0 : Nat) : Nat × Nat := monthDayAux 1 (monthLengths (isLeap y)) d0

/-- Calendar month of a day count, as `Series.dt.month`. -/
def monthOf (days : Nat) : Nat := (monthDay (yearDoy days).1 (yearDoy days).2).1

/-- Calendar day-of-month of a day count (the spec's "ISO calendar
day-of-month", 1-31). -/
def dayOfMonthOf (days : Nat) : Nat := (monthDay (yearDoy days).1 (yearDoy days).2).2

/-- Day count (as `Int`, may precede the epoch) of the Monday starting ISO
week 1 of year `y`: Jan 1 moved back to its Monday, shifted one week forward
when Jan 1 falls after Thursday.  This is the `isoweek1monday` computation
that `isocalendar` is built on. -/
def isoweek1monday (y : Nat) : Int :=
  (startOfYear y : Int) - jan1wd y + (if 3 < jan1wd y then 7 else 0)

/-- ISO calendar triple (ISO year, ISO week 1-53, ISO weekday 1-7) of a day
count since the epoch, as returned by `Series.dt.isocalendar()`: position the
day relative to the week-1 Monday of its calendar year, moving to the
previous ISO year when it precedes that Monday and to the next ISO year when
it reaches the next year's week-1 Monday. -/
def isocalendarOf (days : Nat) : Nat × Nat × Nat :=
  let y := (yearDoy days).1
  let diff : Int := (days : Int) - isoweek1monday y
  let week : Int := diff / 7
  let day : Int := diff % 7
  if week < 0 then
    let diff2 : Int := (days : Int) - isoweek1monday (y - 1)
    (y - 1, (diff2 / 7 + 1).toNat, (diff2 % 7 + 1).toNat)
  else if 52 ≤ week ∧ isoweek1monday (y + 1) ≤ (days : Int) then
    (y + 1, 1, (day + 1).toNat)
  else
    (y, (week + 1).toNat, (day + 1).toNat)

/-- A row of the `time` dimension table, in the column order
`(start_time, hour, day, week, month, year, weekday)` built at
`src/etl.py` lines 113-125. -/
structure TimeRec where
  start_time : Nat
  hour : Nat
  day : Nat
  week : Nat
  month : Nat
  year : Nat
  weekday : Nat
deriving DecidableEq

/-- The time-bucket derivation of `process_log_file`: the tuple
`(t.ts, hour, isocalendar().day, isocalendar().week, month,
isocalendar().year, weekday)` for one timestamp. -/
def timeRecOf (ts : Nat) : TimeRec :=
  let d := msToDays ts
  let ic := isocalendarOf d
  { start_time := ts
    hour := hourOf ts
    day := ic.2.2
    week := ic.2.1
    month := monthOf d
    year := ic.1
    weekday := wdOf d }

/-- Modelled from the spec (glossary): "week 1 of a year is the week
containing the first Thursday of that year" — the first Thursday of year
`y`, as a day count since the epoch. -/
def first_thursday (y : Nat) : Nat := startOfYear y + (10 - jan1wd y) % 7

/-- Modelled from the spec: the Monday opening ISO week 1 of year `y`, i.e.
the Monday of the week containing the first Thursday of `y`. -/
def week1_monday_spec (y : Nat) : Int := (first_thursday y : Int) - 3

/-- Modelled from the spec: ISO-8601 week numbering — the timestamp's
`(year, week)` pair places its day inside the `week`-th seven-day window
counted from the Monday of the week containing the first Thursday of
`year`, and before week 1 of `year + 1` (so a day near a year boundary may
report an ISO year different from its calendar year). -/
def follows_iso_week_numbering (ts : Nat) : Prop :=
  1 ≤ (timeRecOf ts).week ∧
  week1_monday_spec (timeRecOf ts).year + 7 * (((timeRecOf ts).week : Int) - 1) ≤
    (msToDays ts : Int) ∧
  (msToDays ts : Int) <
    week1_monday_spec (timeRecOf ts).year + 7 * ((timeRecOf ts).week : Int) ∧
  (msToDays ts : Int) < week1_monday_spec ((timeRecOf ts).year + 1)

/-- A catalog row joining `songs` and `artists`, the data over which the
`song_select` lookup ranges. -/
structure SongRow where
  title : String
  artist_name : String
  duration : Rat
  song_id : String
  artist_id : String
deriving DecidableEq

/-- Modelled from the spec: the `song_select` query of the missing
`sql_queries.py` — §4.4 "querying the relational store for a Song/Artist
pair where `song.title == event.song AND artist.name == event.artist AND
song.duration == event.length` (exact match)".  Returns the matching
`(song_id, artist_id)` pairs in store order. -/
def song_select (rows : List SongRow) (song artist : String) (length : Rat) :
    List (String × String) :=
  (rows.filter fun r => r.title == song && r.artist_name == artist && r.duration == length).map
    fun r => (r.song_id, r.artist_id)

/-- The fact-resolution step at `src/etl.py` lines 173-177:
`results = cur.fetchone(); if results: songid, artistid = results else None, None`. -/
def resolveIds (rows : List SongRow) (song artist : String) (length : Rat) :
    Option String × Option String :=
  match (song_select rows song artist length).head? with
  | some p => (some p.1, some p.2)
  | none => (none, none)

/-- One parsed line of a log file.  `none` models a null / missing value
(pandas `NaN`); `ts` is assumed present (the code converts it unconditionally). -/
structure LogLine where
  ts : Nat
  page : String
  userId : Option String
  firstName : Option String
  lastName : Option String
  gender : Option String
  level : Option String
  sessionId : Option Nat
  artist : Option String
  song : Option String
  length : Option Rat
  location : Option String
  userAgent : Option String
deriving DecidableEq

/-- A `users` dimension row `(userId, firstName, lastName, gender, level)`. -/
structure UserRec where
  userId : Option String
  firstName : Option String
  lastName : Option String
  gender : Option String
  level : Option String
deriving DecidableEq

/-- A `songplays` fact row, in the tuple order of `songplay_data` at
`src/etl.py` lines 180-189. -/
structure SongplayRec where
  start_time : Nat
  userId : Option String
  level : Option String
  song_id : Option String
  artist_id : Option String
  sessionId : Option Nat
  location : Option String
  userAgent : Option String
deriving DecidableEq

/-- An `artists` dimension row, in the column order of `artist_data` at
`src/etl.py` lines 37-49. -/
structure ArtistRec where
  artist_id : String
  artist_name : String
  artist_location : Option String
  artist_latitude : Option Rat
  artist_longitude : Option Rat
deriving DecidableEq

/-- A `songs` dimension row, in the column order of `song_data` at
`src/etl.py` line 66. -/
structure SongRec where
  song_id : String
  title : String
  artist_id : String
  year : Nat
  duration : Rat
deriving DecidableEq

/-- A statement executed on the cursor (`cur.execute(...)` call). -/
inductive Stmt where
  | timeInsert (r : TimeRec)
  | userInsert (r : UserRec)
  | songSelect (song artist : String) (length : Rat)
  | songplayInsert (r : SongplayRec)
  | artistInsert (r : ArtistRec)
  | songInsert (r : SongRec)
deriving DecidableEq

/-- The relational-store model: the catalog rows visible to `song_select`,
and which statements raise `psycopg2.Error` when executed. -/
structure Store where
  rows : List SongRow
  failsOn : Stmt → Bool

/-- The user record built from a log line (`src/etl.py` line 138). -/
def userRecOf (l : LogLine) : UserRec :=
  ⟨l.userId, l.firstName, l.lastName, l.gender, l.level⟩

/-- One iteration of the songplay loop (`src/etl.py` lines 163-196) for one
log line that survived `dropna`: attempt the `song_select` lookup; on a
store error skip the event (`continue`), otherwise build `songplay_data`
from `fetchone` and attempt the fact insert. -/
def songplayStmts (st : Store) (l : LogLine) : List Stmt :=
  match l.song, l.artist, l.length with
  | some s, some a, some len =>
    let sel := Stmt.songSelect s a len
    if st.failsOn sel then [sel]
    else
      let ids := resolveIds st.rows s a len
      [sel, Stmt.songplayInsert
        ⟨l.ts, l.userId, l.level, ids.1, ids.2, l.sessionId, l.location, l.userAgent⟩]
  | _, _, _ => []

/-- The `dropna(subset=["artist", "song", "length"])` row predicate
(`src/etl.py` line 160). -/
def hasSongArtistLength (l : LogLine) : Bool :=
  l.artist.isSome && l.song.isSome && l.length.isSome

/-- `process_log_file` (`src/etl.py` lines 82-196) as the ordered list of
statements attempted on the cursor: `none` models a `pd.read_json` failure
(early return).  Time records come from the page-filtered frame `t`; user
records from all lines with `userId != ""`; songplay events from all lines
(any page) with non-null artist, song and length.  Insert failures are
logged and skipped (`continue`), so they do not change which statements are
attempted. -/
def process_log_file (st : Store) (file : Option (List LogLine)) : List Stmt :=
  match file with
  | none => []
  | some lines =>
    ((lines.filter fun l => l.page == "NextSong").map
        fun l => Stmt.timeInsert (timeRecOf l.ts)) ++
      ((lines.filter fun l => !(l.userId == some "")).map
        fun l => Stmt.userInsert (userRecOf l)) ++
      (lines.filter hasSongArtistLength).flatMap (songplayStmts st)

/-- The outcome of parsing one song-metadata file (`src/etl.py` lines
28-53 and 64-71): `parseError` models a `pd.read_json` failure;
`rows ac sc` models a readable file where `ac` (resp. `sc`) is the artist
(resp. song) column extraction, `none` when that extraction raises. -/
inductive SongFileParse where
  | parseError
  | rows (artistCols : Option ArtistRec) (songCols : Option SongRec)

/-- `process_song_file` (`src/etl.py` lines 14-79) as the ordered list of
statements attempted on the cursor: each failure (parse, column extraction,
artist insert) returns early, so an artist-insert failure prevents the song
insert from being attempted. -/
def process_song_file (st : Store) (file : SongFileParse) : List Stmt :=
  match file with
  | .parseError => []
  | .rows ac sc =>
    match ac with
    | none => []
    | some a =>
      if st.failsOn (.artistInsert a) then [.artistInsert a]
      else
        match sc with
        | none => [.artistInsert a]
        | some s => [.artistInsert a, .songInsert s]

/-- Recognize a `time` insert in a statement trace. -/
def isTimeInsert : Stmt → Bool
  | .timeInsert _ => true
  | _ => false

/-- Recognize a `users` insert in a statement trace. -/
def isUserInsert : Stmt → Bool
  | .userInsert _ => true
  | _ => false

/-- Recognize a `songplays` fact insert in a statement trace. -/
def isSongplayInsert : Stmt → Bool
  | .songplayInsert _ => true
  | _ => false

/-- Recognize an `artists` insert in a statement trace. -/
def isArtistInsert : Stmt → Bool
  | .artistInsert _ => true
  | _ => false

/-- Recognize a `songs` insert in a statement trace. -/
def isSongInsert : Stmt → Bool
  | .songInsert _ => true
  | _ => false

/-- Recognize any insert statement (everything except the lookup). -/
def isInsert : Stmt → Bool
  | .songSelect _ _ _ => false
  | _ => true

/-- The inserts of a trace that the store actually accepts: the dimension /
fact writes performed. -/
def succeededWrites (st : Store) (tr : List Stmt) : List Stmt :=
  tr.filter fun s => isInsert s && !st.failsOn s

/-! ### Calendar lemmas -/

theorem daysInYear_bounds (y : Nat) : 365 ≤ daysInYear y ∧ daysInYear y ≤ 366 := by
  unfold daysInYear
  split <;> omega

theorem startOfYear_succ (y : Nat) (h : 1970 ≤ y) :
    startOfYear (y + 1) = startOfYear y + daysInYear y := by
  have h1 : y + 1 - 1970 = (y - 1970) + 1 := by omega
  have h2 : 1970 + (y - 1970) = y := by omega
  unfold startOfYear
  rw [h1]
  show startOfYearAux (y - 1970) + daysInYear (1970 + (y - 1970)) = _
  rw [h2]

theorem yearDoyAux_spec : ∀ (fuel y rem : Nat), 1970 ≤ y → rem ≤ fuel →
    startOfYear (yearDoyAux fuel y rem).1 + (yearDoyAux fuel y rem).2 =
      startOfYear y + rem ∧
    (yearDoyAux fuel y rem).2 < daysInYear (yearDoyAux fuel y rem).1 ∧
    1970 ≤ (yearDoyAux fuel y rem).1 := by
  intro fuel
  induction fuel with
  | zero =>
    intro y rem hy hr
    have hd := daysInYear_bounds y
    dsimp only [yearDoyAux]
    exact ⟨rfl, by omega, hy⟩
  | succ fuel ih =>
    intro y rem hy hr
    have hd := daysInYear_bounds y
    dsimp only [yearDoyAux]
    split
    · rename_i h
      obtain ⟨ih1, ih2, ih3⟩ := ih (y + 1) (rem - daysInYear y) (by omega) (by omega)
      rw [startOfYear_succ y hy] at ih1
      exact ⟨by omega, ih2, ih3⟩
    · rename_i h
      dsimp only
      exact ⟨rfl, by omega, hy⟩

theorem yearDoy_spec (days : Nat) :
    startOfYear (yearDoy days).1 + (yearDoy days).2 = days ∧
    (yearDoy days).2 < daysInYear (yearDoy days).1 ∧ 1970 ≤ (yearDoy days).1 := by
  obtain ⟨h1, h2, h3⟩ := yearDoyAux_spec days 1970 days (by omega) (Nat.le_refl _)
  have hS : startOfYear 1970 = 0 := rfl
  unfold yearDoy
  exact ⟨by omega, h2, h3⟩

theorem jan1wd_lt (y : Nat) : jan1wd y < 7 := by
  unfold jan1wd wdOf
  exact Nat.mod_lt _ (by omega)

theorem isoweek1monday_bounds (y : Nat) :
    (startOfYear y : Int) - 3 ≤ isoweek1monday y ∧
      isoweek1monday y ≤ (startOfYear y : Int) + 3 := by
  have h7 := jan1wd_lt y
  unfold isoweek1monday
  by_cases h : 3 < jan1wd y
  · rw [if_pos h]
    omega
  · rw [if_neg h]
    omega

theorem isoweek1monday_emod (y : Nat) : isoweek1monday y % 7 = 4 := by
  have h7 := jan1wd_lt y
  have hj : jan1wd y = (startOfYear y + 3) % 7 := rfl
  unfold isoweek1monday
  by_cases h : 3 < jan1wd y
  · rw [if_pos h]
    omega
  · rw [if_neg h]
    omega

theorem isoweek1monday_succ (y : Nat) (hy : 1970 ≤ y) :
    isoweek1monday y + 364 ≤ isoweek1monday (y + 1) ∧
      isoweek1monday (y + 1) ≤ isoweek1monday y + 371 := by
  have hb := isoweek1monday_bounds y
  have hb1 := isoweek1monday_bounds (y + 1)
  have he := isoweek1monday_emod y
  have he1 := isoweek1monday_emod (y + 1)
  have hs := startOfYear_succ y hy
  have hd := daysInYear_bounds y
  omega

theorem week1_monday_spec_eq (y : Nat) : week1_monday_spec y = isoweek1monday y := by
  have h7 := jan1wd_lt y
  unfold week1_monday_spec first_thursday isoweek1monday
  by_cases h : 3 < jan1wd y
  · rw [if_pos h]
    omega
  · rw [if_neg h]
    omega

theorem isocalendar_week_mem (days y0 d0 : Nat) (hyd : yearDoy days = (y0, d0))
    (hsum : startOfYear y0 + d0 = days) (hlt : d0 < daysInYear y0)
    (hy : 1970 ≤ y0) :
    1 ≤ (isocalendarOf days).2.1 ∧
    isoweek1monday (isocalendarOf days).1 +
        7 * (((isocalendarOf days).2.1 : Int) - 1) ≤ (days : Int) ∧
    (days : Int) < isoweek1monday (isocalendarOf days).1 +
        7 * ((isocalendarOf days).2.1 : Int) ∧
    (days : Int) < isoweek1monday ((isocalendarOf days).1 + 1) := by
  simp only [isocalendarOf, hyd]
  have hb := isoweek1monday_bounds y0
  have hb1 := isoweek1monday_bounds (y0 + 1)
  have he := isoweek1monday_emod y0
  have he1 := isoweek1monday_emod (y0 + 1)
  have hsy := startOfYear_succ y0 hy
  have hd := daysInYear_bounds y0
  split_ifs with h1 h2
  · -- the day precedes the week-1 Monday of its calendar year
    have hlt0 : (days : Int) < isoweek1monday y0 := by omega
    have hy1971 : 1971 ≤ y0 := by
      by_contra hc
      have hy0 : y0 = 1970 := by omega
      rw [hy0] at hlt0
      have h70 : isoweek1monday 1970 = -3 := by decide
      omega
    have hn : y0 - 1 + 1 = y0 := by omega
    have hb' := isoweek1monday_bounds (y0 - 1)
    have he' := isoweek1monday_emod (y0 - 1)
    have hs' := isoweek1monday_succ (y0 - 1) (by omega)
    rw [hn] at hs'
    have hsy' := startOfYear_succ (y0 - 1) (by omega)
    rw [hn] at hsy'
    have hd' := daysInYear_bounds (y0 - 1)
    dsimp only
    simp only [hn]
    omega
  · -- the day reaches the week-1 Monday of the next calendar year
    have hs1 := isoweek1monday_succ (y0 + 1) (by omega)
    have hsy1 := startOfYear_succ (y0 + 1) (by omega)
    have hb2 := isoweek1monday_bounds (y0 + 1 + 1)
    have hd1 := daysInYear_bounds (y0 + 1)
    obtain ⟨h21, h22⟩ := h2
    dsimp only
    omega
  · -- ordinary week inside the calendar year
    have hs := isoweek1monday_succ y0 hy
    rw [not_and_or] at h2
    dsimp only
    rcases h2 with h2 | h2 <;> omega

theorem isocalendar_day_eq (days y0 d0 : Nat) (hyd : yearDoy days = (y0, d0)) :
    (isocalendarOf days).2.2 = wdOf days + 1 := by
  simp only [isocalendarOf, hyd]
  have he := isoweek1monday_emod y0
  have he' := isoweek1monday_emod (y0 - 1)
  have hw : wdOf days = (days + 3) % 7 := rfl
  split_ifs with h1 h2 <;> (dsimp only; omega)

/-! ### Helper lemmas on statement traces -/

theorem filter_isUserInsert_timeMap (xs : List LogLine) :
    ((xs.map fun l => Stmt.timeInsert (timeRecOf l.ts)).filter isUserInsert) = [] := by
  induction xs with
  | nil => rfl
  | cons x xs ih => simp [List.filter_cons, isUserInsert, ih]

theorem filter_isUserInsert_userMap (xs : List LogLine) :
    ((xs.map fun l => Stmt.userInsert (userRecOf l)).filter isUserInsert) =
      xs.map fun l => Stmt.userInsert (userRecOf l) := by
  induction xs with
  | nil => rfl
  | cons x xs ih => simp [List.filter_cons, isUserInsert, ih]

theorem filter_isUserInsert_songplayStmts (st : Store) (l : LogLine) :
    (songplayStmts st l).filter isUserInsert = [] := by
  unfold songplayStmts
  cases hs : l.song <;> cases ha : l.artist <;> cases hl : l.length <;>
    simp [List.filter_cons, isUserInsert]
  split <;> simp [List.filter_cons, isUserInsert]

theorem filter_isUserInsert_flatMap (st : Store) (xs : List LogLine) :
    ((xs.flatMap (songplayStmts st)).filter isUserInsert) = [] := by
  induction xs with
  | nil => rfl
  | cons x xs ih =>
    simp [List.flatMap_cons, List.filter_append, filter_isUserInsert_songplayStmts, ih]

theorem songplayStmts_select_congr (rows : List SongRow) (f1 f2 : Stmt → Bool)
    (h : ∀ s a len, f1 (Stmt.songSelect s a len) = f2 (Stmt.songSelect s a len))
    (l : LogLine) : songplayStmts ⟨rows, f1⟩ l = songplayStmts ⟨rows, f2⟩ l := by
  unfold songplayStmts
  cases hs : l.song <;> cases ha : l.artist <;> cases hl : l.length <;> simp
  rw [h]

theorem flatMap_fun_congr {α β : Type} (g1 g2 : α → List β) (xs : List α)
    (h : ∀ x, g1 x = g2 x) : xs.flatMap g1 = xs.flatMap g2 := by
  induction xs with
  | nil => rfl
  | cons x xs ih => simp [List.flatMap_cons, h, ih]

/-! ### Claim theorems -/

/-- C1: the claim states that a log line with `page != "NextSong"` produces
no TimeBucket and no SongPlayEvent record regardless of its other fields.
The code at `src/etl.py` lines 160-163 iterates the unfiltered frame (only
`dropna` on artist/song/length), so a `page = "Home"` line with non-null
artist, song and length produces no time record but does produce a songplay
fact record: the claim's songplay half fails on the code. -/
theorem c1_nonNextSong_line_produces_songplay :
    (process_log_file ⟨[], fun _ => false⟩ (some [⟨1541121934796, "Home", some "7",
        some "F", some "L", some "M", some "free", some 100, some "Nirvana", some "X",
        some 200, some "NYC", some "UA"⟩])).filter isTimeInsert = [] ∧
    (process_log_file ⟨[], fun _ => false⟩ (some [⟨1541121934796, "Home", some "7",
        some "F", some "L", some "M", some "free", some 100, some "Nirvana", some "X",
        some 200, some "NYC", some "UA"⟩])).filter isSongplayInsert =
      [Stmt.songplayInsert ⟨1541121934796, some "7", some "free", none, none, some 100,
        some "NYC", some "UA"⟩] := by
  decide

/-- C2: the Fact Resolver takes `song_id`/`artist_id` from the first row of
the exact `(title, artist, duration)` lookup when a row matches, yields
`(null, null)` when no row matches exactly (in particular when no stored
duration equals the event length), and the fact record is built from the
resolved pair without error. -/
theorem c2_resolver_first_match_or_null :
    ∀ (rows : List SongRow) (s a : String) (len : Rat),
      (∀ p, (song_select rows s a len).head? = some p →
        resolveIds rows s a len = (some p.1, some p.2)) ∧
      (song_select rows s a len = [] → resolveIds rows s a len = (none, none)) ∧
      ((∀ r ∈ rows, ¬(r.title = s ∧ r.artist_name = a ∧ r.duration = len)) →
        resolveIds rows s a len = (none, none)) ∧
      (∀ (st : Store) (l : LogLine), st.rows = rows → l.song = some s →
        l.artist = some a → l.length = some len →
        st.failsOn (Stmt.songSelect s a len) = false →
        songplayStmts st l = [Stmt.songSelect s a len,
          Stmt.songplayInsert ⟨l.ts, l.userId, l.level, (resolveIds rows s a len).1,
            (resolveIds rows s a len).2, l.sessionId, l.location, l.userAgent⟩]) := by
  intro rows s a len
  refine ⟨?_, ?_, ?_, ?_⟩
  · intro p hp
    unfold resolveIds
    rw [hp]
  · intro h
    unfold resolveIds
    rw [h]
    rfl
  · intro h
    have hf : rows.filter
        (fun r => r.title == s && r.artist_name == a && r.duration == len) = [] := by
      rw [List.filter_eq_nil_iff]
      intro r hr
      simp only [Bool.and_eq_true, beq_iff_eq, not_and]
      intro h1 h2
      exact h r hr ⟨h1.1, h1.2, h2⟩
    have hsel : song_select rows s a len = [] := by
      unfold song_select
      rw [hf]
      rfl
    unfold resolveIds
    rw [hsel]
    rfl
  · intro st l hrows hs ha hl hfail
    unfold songplayStmts
    rw [hs, ha, hl]
    simp [hfail, hrows]

/-- C2 witness: a store whose only row matches on title and artist but whose
duration differs from the event length by 0.001 resolves to `(null, null)`;
with the duration equal it resolves to that row's ids. -/
theorem c2_resolver_witness :
    resolveIds [⟨"X", "Nirvana", mkRat 200001 1000, "S1", "A1"⟩] "X" "Nirvana"
        (200 : Rat) = (none, none) ∧
    resolveIds [⟨"X", "Nirvana", (200 : Rat), "S1", "A1"⟩] "X" "Nirvana"
        (200 : Rat) = (some "S1", some "A1") :=
  ⟨(c2_resolver_first_match_or_null [⟨"X", "Nirvana", mkRat 200001 1000, "S1", "A1"⟩]
      "X" "Nirvana" (200 : Rat)).2.1 (by decide),
   (c2_resolver_first_match_or_null [⟨"X", "Nirvana", (200 : Rat), "S1", "A1"⟩]
      "X" "Nirvana" (200 : Rat)).1 ("S1", "A1") (by decide)⟩

/-- C5 counterexample: a readable song file whose artist columns extract but
whose song columns do not (a required song field absent) still performs the
artist dimension write, so "no partial dimension writes for a malformed
file" fails on the code (`src/etl.py` inserts the artist at line 57 before
extracting song columns at line 64). -/
theorem c5_partial_write_counterexample :
    succeededWrites ⟨[], fun _ => false⟩
        (process_song_file ⟨[], fun _ => false⟩
          (SongFileParse.rows (some ⟨"A1", "Nirvana", some "Seattle", none, none⟩) none)) =
      [Stmt.artistInsert ⟨"A1", "Nirvana", some "Seattle", none, none⟩] ∧
    succeededWrites ⟨[], fun _ => false⟩
        (process_song_file ⟨[], fun _ => false⟩
          (SongFileParse.rows (some ⟨"A1", "Nirvana", some "Seattle", none, none⟩) none)) ≠
      [] := by
  decide

/-- C5 amended: an unreadable file or a failing artist-column extraction
performs no statement at all, and a failing song-column extraction never
attempts the song insert (but the artist insert may already have happened). -/
theorem c5_no_writes_before_artist_extraction :
    ∀ (st : Store) (ac : Option ArtistRec) (sc : Option SongRec),
      process_song_file st SongFileParse.parseError = [] ∧
      process_song_file st (SongFileParse.rows none sc) = [] ∧
      (process_song_file st (SongFileParse.rows ac none)).filter isSongInsert = [] := by
  intro st ac sc
  refine ⟨rfl, rfl, ?_⟩
  rcases ac with _ | a
  · rfl
  · simp only [process_song_file]
    split <;> simp [List.filter_cons, isSongInsert]

/-- C6 counterexample: when the artist insert of a song file fails, the
code returns at `src/etl.py` line 61, so the song insert of the same file
is never attempted, contradicting the claim that remaining records of the
file are still attempted. -/
theorem c6_artist_failure_aborts_counterexample :
    process_song_file ⟨[], isArtistInsert⟩
        (SongFileParse.rows (some ⟨"A1", "Nirvana", some "Seattle", none, none⟩)
          (some ⟨"S1", "X", "A1", 1994, 200⟩)) =
      [Stmt.artistInsert ⟨"A1", "Nirvana", some "Seattle", none, none⟩] ∧
    Stmt.songInsert ⟨"S1", "X", "A1", 1994, 200⟩ ∉
      process_song_file ⟨[], isArtistInsert⟩
        (SongFileParse.rows (some ⟨"A1", "Nirvana", some "Seattle", none, none⟩)
          (some ⟨"S1", "X", "A1", 1994, 200⟩)) := by
  decide

/-- C6 amended: in log-file processing a single record's insert failure is
skipped and has no effect on which statements are attempted (only lookup
outcomes matter), and in song-file processing the song insert is attempted
exactly when the artist insert succeeds — an artist-insert failure aborts
the rest of that file. -/
theorem c6_per_record_failure_semantics :
    (∀ (rows : List SongRow) (f1 f2 : Stmt → Bool) (lines : List LogLine),
      (∀ s a len, f1 (Stmt.songSelect s a len) = f2 (Stmt.songSelect s a len)) →
      process_log_file ⟨rows, f1⟩ (some lines) = process_log_file ⟨rows, f2⟩ (some lines)) ∧
    (∀ (st : Store) (a : ArtistRec) (sc : SongRec),
      st.failsOn (Stmt.artistInsert a) = false →
      process_song_file st (SongFileParse.rows (some a) (some sc)) =
        [Stmt.artistInsert a, Stmt.songInsert sc]) ∧
    (∀ (st : Store) (a : ArtistRec) (sc : Option SongRec),
      st.failsOn (Stmt.artistInsert a) = true →
      process_song_file st (SongFileParse.rows (some a) sc) = [Stmt.artistInsert a]) := by
  refine ⟨?_, ?_, ?_⟩
  · intro rows f1 f2 lines h
    simp only [process_log_file]
    rw [flatMap_fun_congr _ _ _ (songplayStmts_select_congr rows f1 f2 h)]
  · intro st a sc h
    simp only [process_song_file]
    simp [h]
  · intro st a sc h
    simp only [process_song_file]
    simp [h]

/-- C6 witness: with no failures versus failure of every insert, a one-line
log file attempts the same statements; and with a never-failing store a
complete song file attempts the artist insert then the song insert. -/
theorem c6_per_record_failure_witness :
    process_log_file ⟨[], fun _ => false⟩ (some [⟨0, "NextSong", some "7", none, none,
        none, some "free", some 1, some "A", some "S", some 100, none, none⟩]) =
      process_log_file ⟨[], isInsert⟩ (some [⟨0, "NextSong", some "7", none, none,
        none, some "free", some 1, some "A", some "S", some 100, none, none⟩]) ∧
    process_song_file ⟨[], fun _ => false⟩
        (SongFileParse.rows (some ⟨"A1", "Nirvana", some "Seattle", none, none⟩)
          (some ⟨"S1", "X", "A1", 1994, 200⟩)) =
      [Stmt.artistInsert ⟨"A1", "Nirvana", some "Seattle", none, none⟩,
       Stmt.songInsert ⟨"S1", "X", "A1", 1994, 200⟩] :=
  ⟨c6_per_record_failure_semantics.1 [] (fun _ => false) isInsert _ (fun _ _ _ => rfl),
   c6_per_record_failure_semantics.2.1 ⟨[], fun _ => false⟩ _ _ rfl⟩

/-- C7: when the `song_select` lookup itself fails for one event, that
event contributes no fact insert, and the songplay phase of a file is the
concatenation of the per-event statements, so the remaining events of the
batch are still processed. -/
theorem c7_lookup_failure_skips_event :
    ∀ (st : Store) (l : LogLine) (s a : String) (len : Rat)
      (pre post : List LogLine),
      l.song = some s → l.artist = some a → l.length = some len →
      st.failsOn (Stmt.songSelect s a len) = true →
      ((songplayStmts st l).filter isSongplayInsert = [] ∧
       ((pre ++ l :: post).filter hasSongArtistLength).flatMap (songplayStmts st) =
         (pre.filter hasSongArtistLength).flatMap (songplayStmts st) ++
           songplayStmts st l ++
           (post.filter hasSongArtistLength).flatMap (songplayStmts st)) := by
  intro st l s a len pre post hs ha hl hfail
  constructor
  · unfold songplayStmts
    rw [hs, ha, hl]
    simp [hfail, List.filter_cons, isSongplayInsert]
  · have hx : hasSongArtistLength l = true := by
      simp [hasSongArtistLength, hs, ha, hl]
    simp [List.filter_append, List.filter_cons, hx, List.flatMap_append,
      List.flatMap_cons, List.append_assoc]

/-- C7 witness: with a store that fails every lookup, a full event line
between two other events yields no fact insert for itself while the phase
still decomposes around it. -/
theorem c7_lookup_failure_witness :
    ((songplayStmts ⟨[], fun s => !isInsert s⟩ ⟨0, "NextSong", some "7", none, none,
        none, some "free", some 1, some "A", some "S", some 100, none, none⟩).filter
      isSongplayInsert = [] ∧
     ((([⟨1, "NextSong", none, none, none, none, none, none, some "B", some "T",
          some 50, none, none⟩] : List LogLine) ++
        (⟨0, "NextSong", some "7", none, none, none, some "free", some 1, some "A",
          some "S", some 100, none, none⟩ : LogLine) ::
        ([⟨2, "Home", none, none, none, none, none, none, none, none, none, none,
          none⟩] : List LogLine)).filter hasSongArtistLength).flatMap
        (songplayStmts ⟨[], fun s => !isInsert s⟩) =
       (([⟨1, "NextSong", none, none, none, none, none, none, some "B", some "T",
          some 50, none, none⟩] : List LogLine).filter hasSongArtistLength).flatMap
         (songplayStmts ⟨[], fun s => !isInsert s⟩) ++
         songplayStmts ⟨[], fun s => !isInsert s⟩ ⟨0, "NextSong", some "7", none, none,
           none, some "free", some 1, some "A", some "S", some 100, none, none⟩ ++
         (([⟨2, "Home", none, none, none, none, none, none, none, none, none, none,
          none⟩] : List LogLine).filter hasSongArtistLength).flatMap
           (songplayStmts ⟨[], fun s => !isInsert s⟩)) :=
  c7_lookup_failure_skips_event ⟨[], fun s => !isInsert s⟩ _ "S" "A" 100 _ _
    rfl rfl rfl rfl

/-- C8: the user inserts attempted by `process_log_file` are exactly one per
line whose `userId` is not the empty string, in file line order, each built
as `(userId, firstName, lastName, gender, level)`. -/
theorem c8_user_records_per_line :
    ∀ (st : Store) (lines : List LogLine),
      (process_log_file st (some lines)).filter isUserInsert =
        (lines.filter fun l => !(l.userId == some "")).map
          fun l => Stmt.userInsert (userRecOf l) := by
  intro st lines
  unfold process_log_file
  simp [List.filter_append, filter_isUserInsert_timeMap, filter_isUserInsert_userMap,
    filter_isUserInsert_flatMap]

/-- C9: extraction is deterministic — processing the same parsed song file
against the same store twice yields the same statements, and the
time-bucket derivation of a timestamp always yields the same record. -/
theorem c9_extraction_deterministic :
    ∀ (st : Store) (f : SongFileParse) (ts : Nat),
      process_song_file st f = process_song_file st f ∧ timeRecOf ts = timeRecOf ts :=
  fun _ _ _ => ⟨rfl, rfl⟩

/-- C10: the user filter at `src/etl.py` line 145 removes only rows whose
`userId` equals the empty string, so a line whose `userId` is null/missing
still has a user insert attempted, with the missing value as the id. -/
theorem c10_missing_userid_inserted :
    ∀ (st : Store) (lines : List LogLine) (l : LogLine),
      l ∈ lines → l.userId = none →
      Stmt.userInsert (userRecOf l) ∈ process_log_file st (some lines) := by
  intro st lines l hl hu
  simp only [process_log_file, List.mem_append]
  refine Or.inl (Or.inr ?_)
  refine List.mem_map.mpr ⟨l, ?_, rfl⟩
  refine List.mem_filter.mpr ⟨hl, ?_⟩
  simp [hu]

/-- C10 witness: a line with a missing `userId` still has its user insert
attempted, with the missing value as the id. -/
theorem c10_missing_userid_witness :
    Stmt.userInsert ⟨none, none, none, none, none⟩ ∈
      process_log_file ⟨[], fun _ => false⟩
        (some [⟨0, "Home", none, none, none, none, none, none, none, none, none,
          none, none⟩]) :=
  c10_missing_userid_inserted ⟨[], fun _ => false⟩
    [⟨0, "Home", none, none, none, none, none, none, none, none, none, none, none⟩]
    ⟨0, "Home", none, none, none, none, none, none, none, none, none, none, none⟩
    (by simp) rfl

/-- C3 counterexample: the claim says the time-bucket "day" component is the
day-of-month (1-31).  For 2021-01-01T00:00:00Z (epoch ms 1609459200000) the
day-of-month is 1, but the code stores `isocalendar().day = 5` (Friday), so
the claim fails on the code. -/
theorem c3_day_differs_from_day_of_month :
    (timeRecOf 1609459200000).day = 5 ∧
    dayOfMonthOf (msToDays 1609459200000) = 1 ∧
    (timeRecOf 1609459200000).day ≠ dayOfMonthOf (msToDays 1609459200000) := by
  decide

/-- C3 amended: the time-bucket "day" component is the ISO weekday of the
timestamp (1 = Monday .. 7 = Sunday), an integer in the range 1 to 7 — it
is `isocalendar().day`, not the day-of-month. -/
theorem c3_day_is_iso_weekday :
    ∀ ts : Nat, (timeRecOf ts).day = wdOf (msToDays ts) + 1 ∧
      1 ≤ (timeRecOf ts).day ∧ (timeRecOf ts).day ≤ 7 := by
  intro ts
  have h := isocalendar_day_eq (msToDays ts) (yearDoy (msToDays ts)).1
    (yearDoy (msToDays ts)).2 rfl
  have hw : wdOf (msToDays ts) < 7 := by
    unfold wdOf
    exact Nat.mod_lt _ (by omega)
  simp only [timeRecOf]
  exact ⟨h, by omega, by omega⟩

/-- C4: for every timestamp the time-bucket (year, week) pair follows
ISO-8601 week numbering — the day lies in the week-th seven-day window
counted from the Monday of the week containing the first Thursday of the
reported ISO year, before week 1 of the following ISO year — and in
particular 2021-01-01T00:00:00Z maps to ISO year 2020, week 53. -/
theorem c4_iso_week_numbering :
    (∀ ts : Nat, follows_iso_week_numbering ts) ∧
    (timeRecOf 1609459200000).year = 2020 ∧ (timeRecOf 1609459200000).week = 53 := by
  refine ⟨?_, by decide, by decide⟩
  intro ts
  obtain ⟨h1, h2, h3⟩ := yearDoy_spec (msToDays ts)
  obtain ⟨m1, m2, m3, m4⟩ := isocalendar_week_mem (msToDays ts)
    (yearDoy (msToDays ts)).1 (yearDoy (msToDays ts)).2 rfl h1 h2 h3
  unfold follows_iso_week_numbering
  simp only [timeRecOf, week1_monday_spec_eq]
  exact ⟨m1, m2, m3, m4⟩
